/-
Verification of dns_beacon.py against its natural-language specification.

The Python source is shallowly embedded below:
* strings are `List Char` (or `String` where only equality and joining matter);
* Python floats are modelled as rationals `ℚ` (the spec describes real
  arithmetic on intervals, not IEEE behaviour);
* the external dnspython resolver is an oracle: its possible behaviours at one
  call are the constructors of `ResolverResult` (the exception space of
  `dns.resolver.resolve` as discriminated by the `except` clauses of
  `perform_query`);
* sources of randomness (`random.choice`, `random.uniform`) are oracles passed
  as explicit arguments: an index stream `picks : Nat → Nat` for `choice`, and
  a sample `u ∈ [0, 1]` for `uniform a b = a + (b - a) * u`, which is exactly
  how CPython implements `random.uniform`;
* Python `%` on integers raises `ZeroDivisionError` for a zero right operand
  and is floor-mod otherwise, so it is embedded as an `Except`-valued `pymod`
  built on `Int.fmod`;
* the scheduler loop of `main` is a step function `stepLoop` on an explicit
  `LoopState`, reading the process-wide `stop_requested` flag through a
  schedule `stop : Nat → Bool` indexed by flag-read events.
-/

import Mathlib

set_option autoImplicit false

namespace DnsBeacon

/-! ### Query Classifier: `perform_query` (dns_beacon.py lines 49-65) -/

/--
The behaviours the external resolver call `resolver.resolve(fqdn, qtype,
lifetime=5)` can exhibit at `perform_query`'s try block, discriminated exactly
as the `except` clauses of lines 58-65 discriminate them: a successful answer
object (a non-empty sequence of records, each with a textual form `to_text()`;
records are embedded as their textual forms), `dns.resolver.NXDOMAIN`,
`dns.resolver.NoAnswer`, `dns.exception.Timeout`, or any other `Exception`
carrying its `str(e)` description.
-/
inductive ResolverResult where
  | success (records : List String) : ResolverResult
  | nxdomain : ResolverResult
  | noAnswer : ResolverResult
  | timeout : ResolverResult
  | otherError (msg : String) : ResolverResult

/--
`perform_query` (lines 49-65): performs the resolver call and returns the
tuple `(rcode, answer_count, rdata_summary)`.  Totality of this function is
the embedding of "no exception escapes the query step": every constructor of
`ResolverResult` is mapped to a regular return value.
-/
def perform_query : ResolverResult → String × Nat × String
  | ResolverResult.success rs => ("NOERROR", rs.length, String.intercalate ", " rs)
  | ResolverResult.nxdomain => ("NXDOMAIN", 0, "")
  | ResolverResult.noAnswer => ("NOANSWER", 0, "")
  | ResolverResult.timeout => ("TIMEOUT", 0, "")
  | ResolverResult.otherError e => ("ERROR", 0, e)

/-! ### Name Generator: `rand_subdomain` (lines 43-47) -/

/-- `string.ascii_lowercase` from the Python standard library. -/
def ascii_lowercase : List Char := "abcdefghijklmnopqrstuvwxyz".toList

/-- `string.digits` from the Python standard library. -/
def digits : List Char := "0123456789".toList

/--
`random.choice(charset)` for a non-empty `charset`: returns the element at an
index chosen by the random source.  The oracle `u` is an arbitrary natural;
reducing it modulo the length makes every in-range index reachable and no
out-of-range index reachable, which is the whole contract of `choice` on a
non-empty sequence.  (On an empty sequence Python raises; the default `'a'`
branch is unreachable for the non-empty charsets the theorems quantify over.)
-/
def choice (charset : List Char) (u : Nat) : Char :=
  charset.getD (u % charset.length) 'a'

/--
`rand_subdomain(length, charset=None)` (lines 43-47): when `charset` is
`None` it defaults to `string.ascii_lowercase + string.digits`; the result is
`''.join(random.choice(charset) for _ in range(length))`.  `length` is a
Python int, so it is embedded as `Int`; `range(length)` for a non-positive
`length` is empty, which `Int.toNat` reproduces.  `picks` is the stream of
random indices consumed by the successive `random.choice` calls.
-/
def rand_subdomain (length : Int) (charset : Option (List Char))
    (picks : Nat → Nat) : List Char :=
  let cs := charset.getD (ascii_lowercase ++ digits)
  (List.range length.toNat).map (fun i => choice cs (picks i))

/-! ### CLI argument model (lines 68-85) -/

/--
The parsed argument namespace produced by `argparse` in `main` (lines 68-85),
with the declared defaults.  `--domain` is `required=True` (so the field is
total here); numeric options carry only a type conversion (`float` / `int`),
no range check; `--qtype` carries a `choices` list; `--jitter` is a flag.
-/
structure Args where
  domain : String
  min_interval : ℚ := 10
  max_interval : ℚ := 20
  sub_len : Int := 12
  qtype : String := "A"
  jitter : Bool := false
  resolver : Option String := none
  log_every : Int := 1

/-- The `choices` list of `--qtype` (line 77). -/
def qtypeChoices : List String := ["A", "AAAA", "TXT", "MX"]

/--
The only value-level validation `argparse` performs on an `Args` record whose
fields already have the right types: membership of `qtype` in its `choices`
list.  No positivity or range check exists for `--sub-len`, `--log-every` or
the intervals anywhere in `main`.
-/
def argsValid (a : Args) : Bool := qtypeChoices.contains a.qtype

/-! ### Interval computation (lines 112-120) -/

/--
`random.uniform(a, b)`: CPython computes `a + (b - a) * random()` where
`random()` is a sample in `[0, 1]` (the oracle `u` here). -/
def uniform (a b u : ℚ) : ℚ := a + (b - a) * u

/--
Pre-jitter interval computation (lines 113-116): if
`args.min_interval == args.max_interval` the interval is `args.min_interval`,
otherwise `random.uniform(args.min_interval, args.max_interval)`.
-/
def computeInterval (minI maxI u : ℚ) : ℚ :=
  if minI = maxI then minI else uniform minI maxI u

/--
Jitter application (lines 118-120): `jitter_amount = interval * 0.10`;
`interval = max(0.1, random.uniform(interval - jitter_amount,
interval + jitter_amount))`.
-/
def applyJitter (interval u : ℚ) : ℚ :=
  let jitter_amount := interval * (1 / 10)
  max (1 / 10) (uniform (interval - jitter_amount) (interval + jitter_amount) u)

/-! ### Logging model (lines 24-31 and 108) -/

/-- Numeric value of Python `logging.DEBUG`. -/
def debugLevel : Nat := 10

/-- Numeric value of Python `logging.INFO`. -/
def infoLevel : Nat := 20

/-- `logging.basicConfig(level=logging.INFO, ...)` (line 25): the root logger
level. -/
def rootLevel : Nat := infoLevel

/-- Neither the `FileHandler` nor the `StreamHandler` of lines 28-29 sets a
handler level, so both sit at `NOTSET` (numeric 0) and defer entirely to the
root logger's level. -/
def handlerLevel : Nat := 0

/--
Python `%` on integers: raises `ZeroDivisionError` when the right operand is
zero, floor-mod (sign of the divisor) otherwise, which is `Int.fmod`.
-/
def pymod (a b : Int) : Except String Int :=
  if b = 0 then Except.error "integer division or modulo by zero"
  else Except.ok (Int.fmod a b)

/--
The console-throttle decision of line 108: the value of
`counter % args.log_every == 0`, or the `ZeroDivisionError` Python raises
when `log_every` is zero.
-/
def console_throttle (counter log_every : Int) : Except String Bool :=
  (pymod counter log_every).map (fun r => r == 0)

/--
The level at which line 108 submits the per-query log line to the logging
system: `logging.info` when the throttle test holds, `logging.debug`
otherwise.
-/
def logRecordLevel (counter log_every : Int) : Except String Nat :=
  (console_throttle counter log_every).map
    (fun b => if b then infoLevel else debugLevel)

/--
Whether the per-query line of line 108 is actually written to the durable
file sink (`FileHandler("dns_beacon.log")`, line 28).  Python logging emits a
record to a handler exactly when the record's level passes the logger's
effective level and the handler's own level.
-/
def emitted_to_file (counter log_every : Int) : Except String Bool :=
  (logRecordLevel counter log_every).map
    (fun lvl => decide (rootLevel ≤ lvl) && decide (handlerLevel ≤ lvl))

/--
Whether the per-query line of line 108 is written to the console
(`StreamHandler(sys.stdout)`, line 29); the filtering rule is identical to
the file handler's because both handlers sit at `NOTSET` under the same root
logger.
-/
def emitted_to_console (counter log_every : Int) : Except String Bool :=
  (logRecordLevel counter log_every).map
    (fun lvl => decide (rootLevel ≤ lvl) && decide (handlerLevel ≤ lvl))

/-! ### Fully-qualified name construction (line 100) -/

/-- Python `str.rstrip('.')`: removes every trailing `'.'` character. -/
def rstrip_dots (s : List Char) : List Char :=
  (s.reverse.dropWhile (fun c => c == '.')).reverse

/-- Line 100: `fqdn = f"{sub}.{args.domain}".rstrip('.')`. -/
def build_fqdn (sub domain : List Char) : List Char :=
  rstrip_dots (sub ++ '.' :: domain)

/-! ### Scheduler loop model (lines 98-129) -/

/--
Where control sits inside `main`'s `while not stop_requested:` loop, between
two consecutive reads of the `stop_requested` flag:
* `checkOuter`: about to evaluate the outer `while not stop_requested`
  condition (line 98); if the flag is clear, the whole body up to and
  including the interval computation runs (it reads the flag nowhere);
* `sleeping slept interval`: inside the inner `while slept < interval` loop
  (lines 125-129), about to test `slept < interval` and then
  `if stop_requested: break` before the next `time.sleep(step)`;
* `stopped`: the loop has exited and only the final log line remains.
-/
inductive Phase where
  | checkOuter : Phase
  | sleeping (slept interval : ℚ) : Phase
  | stopped : Phase
deriving DecidableEq

/--
Observable loop state: the control phase, the number of queries issued
(`perform_query` calls), and the total time spent inside `time.sleep`.
-/
structure LoopState where
  phase : Phase
  queries : Nat
  sleptTotal : ℚ
deriving DecidableEq

/-- `step = 0.2` (line 124): the fixed sleep sub-step. -/
def subStep : ℚ := 1 / 5

/--
One step of `main`'s loop between two flag reads, with `flag` the value of
`stop_requested` read at this step and `intervals q` the (random) interval
computed after query number `q` (lines 112-120 made an oracle):
* at `checkOuter`, a set flag exits the loop; a clear flag runs one body:
  one query is issued and the inner sleep loop is entered with `slept = 0.0`
  (line 123) and the freshly computed interval;
* at `sleeping`, `slept < interval` is tested first (line 125; if it fails
  the inner loop ends and control returns to the outer condition), then the
  flag (line 126; if set, `break` out of the sleep), then `time.sleep(step)`
  runs and `slept += step` (lines 128-129);
* `stopped` is terminal.
-/
def stepLoop (flag : Bool) (intervals : Nat → ℚ) (s : LoopState) : LoopState :=
  match s.phase with
  | Phase.checkOuter =>
      if flag then { s with phase := Phase.stopped }
      else { phase := Phase.sleeping 0 (intervals s.queries),
             queries := s.queries + 1,
             sleptTotal := s.sleptTotal }
  | Phase.sleeping slept itv =>
      if slept < itv then
        if flag then { s with phase := Phase.stopped }
        else { s with phase := Phase.sleeping (slept + subStep) itv,
                      sleptTotal := s.sleptTotal + subStep }
      else { s with phase := Phase.checkOuter }
  | Phase.stopped => s

/-- The loop starts at the outer condition with no queries issued (line 98,
`counter = 0` at line 94). -/
def initState : LoopState :=
  { phase := Phase.checkOuter, queries := 0, sleptTotal := 0 }

/--
The loop state after `n` flag-read steps, where `stop k` is the value of
`stop_requested` at the `k`-th read.  The signal handler only ever sets the
flag (lines 35-38), so the schedules of interest are monotone.
-/
def run (stop : Nat → Bool) (intervals : Nat → ℚ) : Nat → LoopState
  | 0 => initState
  | n + 1 => stepLoop (stop n) intervals (run stop intervals n)

/-- Flag schedule used to exercise the loop model on concrete inputs: clear
for the first two reads, set from the third on. -/
def stopFromTwo : Nat → Bool := fun k => decide (2 ≤ k)

/-- Constant interval oracle used to exercise the loop model on concrete
inputs: every iteration sleeps for one second. -/
def oneSecond : Nat → ℚ := fun _ => 1

/-! ### Theorems -/

/--
Claim C1: for every resolver condition, `perform_query` returns a regular
outcome value and never raises (it is a total function on the resolver's
behaviour space): NXDOMAIN yields `("NXDOMAIN", 0, "")`, a no-answer
condition yields `("NOANSWER", 0, "")`, a timeout yields
`("TIMEOUT", 0, "")`, and any other resolver failure yields
`("ERROR", 0, str(e))`.
-/
theorem perform_query_total_error_as_value :
    perform_query ResolverResult.nxdomain = ("NXDOMAIN", 0, "") ∧
    perform_query ResolverResult.noAnswer = ("NOANSWER", 0, "") ∧
    perform_query ResolverResult.timeout = ("TIMEOUT", 0, "") ∧
    ∀ e : String, perform_query (ResolverResult.otherError e) = ("ERROR", 0, e) :=
  ⟨rfl, rfl, rfl, fun _ => rfl⟩

/--
Claim C2: for every successful resolution returning a non-empty list of `n`
answer records, `perform_query` returns `NOERROR`, answer count `n`, and the
comma-space-joined textual forms; in particular on
`["1.2.3.4", "1.2.3.5", "1.2.3.6"]` it returns
`("NOERROR", 3, "1.2.3.4, 1.2.3.5, 1.2.3.6")`.
-/
theorem perform_query_success (rs : List String) (_hne : rs ≠ []) :
    perform_query (ResolverResult.success rs) =
      ("NOERROR", rs.length, String.intercalate ", " rs) ∧
    perform_query (ResolverResult.success ["1.2.3.4", "1.2.3.5", "1.2.3.6"]) =
      ("NOERROR", 3, "1.2.3.4, 1.2.3.5, 1.2.3.6") :=
  ⟨rfl, rfl⟩

/-- Witness for C2 at the spec's three-record example. -/
theorem perform_query_success_witness :
    perform_query (ResolverResult.success ["1.2.3.4", "1.2.3.5", "1.2.3.6"]) =
      ("NOERROR", 3, "1.2.3.4, 1.2.3.5, 1.2.3.6") :=
  (perform_query_success ["1.2.3.4", "1.2.3.5", "1.2.3.6"] (by simp)).2

/--
Claim C4: for every configuration with `minInterval ≤ maxInterval` and every
uniform sample `u ∈ [0, 1]`, the pre-jitter interval equals `minInterval`
when the bounds coincide, and in all cases lies in
`[minInterval, maxInterval]`.
-/
theorem computeInterval_in_bounds (minI maxI u : ℚ)
    (hle : minI ≤ maxI) (hu0 : 0 ≤ u) (hu1 : u ≤ 1) :
    (minI = maxI → computeInterval minI maxI u = minI) ∧
    minI ≤ computeInterval minI maxI u ∧ computeInterval minI maxI u ≤ maxI := by
  refine ⟨fun he => by simp [computeInterval, he], ?_⟩
  by_cases he : minI = maxI
  · simp [computeInterval, he]
  · simp only [computeInterval, he, if_false, uniform]
    constructor <;> nlinarith

/-- Witness for C4 at `minInterval = 2`, `maxInterval = 5`, `u = 1/3`. -/
theorem computeInterval_in_bounds_witness :
    ((2 : ℚ) = 5 → computeInterval 2 5 (1 / 3) = 2) ∧
    (2 : ℚ) ≤ computeInterval 2 5 (1 / 3) ∧ computeInterval 2 5 (1 / 3) ≤ 5 :=
  computeInterval_in_bounds 2 5 (1 / 3) (by norm_num) (by norm_num) (by norm_num)

/--
Claim C5: for every non-negative pre-jitter interval `i` and every uniform
sample `u ∈ [0, 1]`, the jittered interval is at least `0.1`, and either the
`0.1` floor applied or the result lies within `±10%` of `i`.
-/
theorem applyJitter_bounds (i u : ℚ) (hi : 0 ≤ i) (hu0 : 0 ≤ u) (hu1 : u ≤ 1) :
    1 / 10 ≤ applyJitter i u ∧
    (applyJitter i u = 1 / 10 ∨
      (i - i * (1 / 10) ≤ applyJitter i u ∧ applyJitter i u ≤ i + i * (1 / 10))) := by
  have hlo : i - i * (1 / 10) ≤ uniform (i - i * (1 / 10)) (i + i * (1 / 10)) u := by
    unfold uniform; nlinarith
  have hhi : uniform (i - i * (1 / 10)) (i + i * (1 / 10)) u ≤ i + i * (1 / 10) := by
    unfold uniform; nlinarith
  refine ⟨le_max_left _ _, ?_⟩
  rcases le_total (uniform (i - i * (1 / 10)) (i + i * (1 / 10)) u) (1 / 10) with h | h
  · exact Or.inl (by unfold applyJitter; exact max_eq_left h)
  · refine Or.inr ?_
    have hmax : applyJitter i u
        = uniform (i - i * (1 / 10)) (i + i * (1 / 10)) u := by
      unfold applyJitter; exact max_eq_right h
    rw [hmax]
    exact ⟨hlo, hhi⟩

/-- Witness for C5 at `i = 4`, `u = 1/2`. -/
theorem applyJitter_bounds_witness :
    1 / 10 ≤ applyJitter 4 (1 / 2) ∧
    (applyJitter 4 (1 / 2) = 1 / 10 ∨
      ((4 : ℚ) - 4 * (1 / 10) ≤ applyJitter 4 (1 / 2) ∧
        applyJitter 4 (1 / 2) ≤ 4 + 4 * (1 / 10))) :=
  applyJitter_bounds 4 (1 / 2) (by norm_num) (by norm_num) (by norm_num)

/--
Claim C7: for every `length ≥ 1` and non-empty charset `C`, `rand_subdomain`
returns a string of exactly `length` characters, each a member of `C`; with
no charset supplied the charset is `string.ascii_lowercase + string.digits`,
36 symbols.
-/
theorem rand_subdomain_length_membership (l : Int) (cs : List Char)
    (picks : Nat → Nat) (hl : 1 ≤ l) (hcs : cs ≠ []) :
    ((rand_subdomain l (some cs) picks).length : Int) = l ∧
    (∀ c ∈ rand_subdomain l (some cs) picks, c ∈ cs) ∧
    rand_subdomain l none picks
      = rand_subdomain l (some (ascii_lowercase ++ digits)) picks ∧
    (ascii_lowercase ++ digits).length = 36 := by
  have hpos : 0 < cs.length := List.length_pos.mpr hcs
  refine ⟨?_, ?_, rfl, by decide⟩
  · simp only [rand_subdomain, Option.getD_some, List.length_map,
      List.length_range]
    exact_mod_cast Int.toNat_of_nonneg (by omega)
  · intro c hc
    simp only [rand_subdomain, Option.getD_some, List.mem_map,
      List.mem_range] at hc
    obtain ⟨i, _, hf⟩ := hc
    rw [← hf]
    have hidx : picks i % cs.length < cs.length := Nat.mod_lt _ hpos
    simp only [choice, List.getD_eq_getElem?_getD, List.getElem?_eq_getElem hidx,
      Option.getD_some]
    exact List.getElem_mem hidx

/-- Witness for C7 at `length = 3`, charset `['x', 'y']`, index stream
`picks i = i`. -/
theorem rand_subdomain_length_membership_witness :
    ((rand_subdomain 3 (some ['x', 'y']) (fun i => i)).length : Int) = 3 ∧
    (∀ c ∈ rand_subdomain 3 (some ['x', 'y']) (fun i => i), c ∈ ['x', 'y']) ∧
    rand_subdomain 3 none (fun i => i)
      = rand_subdomain 3 (some (ascii_lowercase ++ digits)) (fun i => i) ∧
    (ascii_lowercase ++ digits).length = 36 :=
  rand_subdomain_length_membership 3 ['x', 'y'] (fun i => i)
    (by norm_num) (by simp)

/--
Counterexample to claim C8: the claim says a `length ≤ 0` makes the name
generator fail, signalled as an invalid-configuration error at startup.  In
the code, startup validation accepts `--sub-len 0` (argparse only applies the
`int` type conversion, `main` adds no check before the loop), and
`rand_subdomain(0)` returns the empty string instead of failing: no failure
exists anywhere on this path.
-/
theorem rand_subdomain_zero_counterexample :
    argsValid { domain := "t.example", sub_len := 0 } = true ∧
    rand_subdomain 0 none (fun _ => 0) = [] :=
  ⟨rfl, rfl⟩

/--
Claim C8 as amended: the name generator never fails: for every `length ≤ 0`
it returns the empty string (Python `range` over a non-positive bound is
empty), and startup validation is unaffected by the value of `sub_len` — no
invalid-configuration error is signalled for non-positive lengths, at
startup or per call.
-/
theorem rand_subdomain_nonpositive_empty (l : Int) (charset : Option (List Char))
    (picks : Nat → Nat) (a : Args) (hl : l ≤ 0) :
    rand_subdomain l charset picks = [] ∧
    argsValid { a with sub_len := l } = argsValid a := by
  refine ⟨?_, rfl⟩
  simp [rand_subdomain, Int.toNat_of_nonpos hl]

/-- Witness for amended C8 at `length = -3`. -/
theorem rand_subdomain_nonpositive_empty_witness :
    rand_subdomain (-3) none (fun _ => 0) = [] ∧
    argsValid { domain := "t.example", sub_len := -3 }
      = argsValid { domain := "t.example" } :=
  rand_subdomain_nonpositive_empty (-3) none (fun _ => 0)
    { domain := "t.example" } (by norm_num)

/-- `rstrip('.')` leaves a string alone when its last character is not a
dot. -/
theorem rstrip_dots_last_ne (xs : List Char) (c : Char) (hc : c ≠ '.') :
    rstrip_dots (xs ++ [c]) = xs ++ [c] := by
  unfold rstrip_dots
  rw [List.reverse_append]
  simp [List.dropWhile_cons, hc]

/-- `rstrip('.')` removes exactly the final dot when the character before it
is not a dot. -/
theorem rstrip_dots_single_dot (xs : List Char) (c : Char) (hc : c ≠ '.') :
    rstrip_dots (xs ++ [c, '.']) = xs ++ [c] := by
  unfold rstrip_dots
  rw [List.reverse_append]
  simp [List.dropWhile_cons, hc]

/--
Counterexample to claim C9: the claim says the trailing dot is stripped
exactly when the base domain itself ends with one.  With base domain `""`
(accepted by argparse: `--domain` requires presence, not non-emptiness) the
base does not end with a dot, so the claim predicts
`fqdn = "ab" + "." + "" = "ab."`; line 100 instead yields `"ab"`, because
`rstrip('.')` strips the trailing dot of the concatenation regardless of
where it came from.
-/
theorem build_fqdn_counterexample :
    build_fqdn "ab".toList "".toList = "ab".toList ∧
    ("".toList : List Char).getLast? ≠ some '.' ∧
    "ab".toList ≠ "ab".toList ++ '.' :: "".toList := by
  refine ⟨by decide, by decide, by decide⟩

/--
Claim C9 as amended: the fully-qualified name is
`generatedLabel + "." + baseDomain` with every trailing dot of the
concatenation removed (`str.rstrip('.')`).  When the base domain ends with a
non-dot character nothing is stripped, and when it ends with exactly one dot
preceded by a non-dot character exactly that dot is stripped — the original
claim's description; but an empty base domain, a base domain of only dots,
or one ending in several dots loses more than the claim states.
-/
theorem build_fqdn_strips_trailing_dots (sub d : List Char) (c : Char)
    (hc : c ≠ '.') :
    build_fqdn sub (d ++ [c]) = sub ++ '.' :: (d ++ [c]) ∧
    build_fqdn sub (d ++ [c, '.']) = sub ++ '.' :: (d ++ [c]) := by
  constructor
  · have key := rstrip_dots_last_ne (sub ++ '.' :: d) c hc
    unfold build_fqdn
    rw [show sub ++ '.' :: (d ++ [c]) = (sub ++ '.' :: d) ++ [c] by simp]
    exact key
  · have key := rstrip_dots_single_dot (sub ++ '.' :: d) c hc
    unfold build_fqdn
    rw [show sub ++ '.' :: (d ++ [c, '.']) = (sub ++ '.' :: d) ++ [c, '.'] by simp]
    rw [key]
    simp

/-- Witness for amended C9 at label `"ab"` and base domains `"cx"` and
`"cx."`. -/
theorem build_fqdn_strips_trailing_dots_witness :
    build_fqdn "ab".toList ("c".toList ++ ['x'])
      = "ab".toList ++ '.' :: ("c".toList ++ ['x']) ∧
    build_fqdn "ab".toList ("c".toList ++ ['x', '.'])
      = "ab".toList ++ '.' :: ("c".toList ++ ['x']) :=
  build_fqdn_strips_trailing_dots "ab".toList "c".toList 'x' (by decide)

/--
Counterexample to claim C3: the claim says the per-query log line is always
written to the durable file sink.  At `counter = 1`, `logEvery = 2` the line
is submitted via `logging.debug`, and the root logger configured at
`logging.INFO` (line 25) filters the DEBUG record out before it reaches any
handler: the line reaches neither the file nor the console.
-/
theorem emitted_to_file_counterexample :
    emitted_to_file 1 2 = Except.ok false := rfl

/--
Claim C3 as amended: for every loop iteration with counter `c` and throttle
`logEvery ≥ 1`, the per-query line is submitted at INFO level exactly when
`c % logEvery == 0` and at DEBUG level otherwise; since the root logger is
configured at INFO, the line is actually written to the file sink and to the
console exactly when `c % logEvery == 0`, and is dropped from both sinks —
not merely demoted on the console — otherwise.
-/
theorem log_line_emission (c logEvery : Int) (hle : 1 ≤ logEvery) :
    logRecordLevel c logEvery
      = Except.ok (if Int.fmod c logEvery == 0 then infoLevel else debugLevel) ∧
    emitted_to_file c logEvery = Except.ok (Int.fmod c logEvery == 0) ∧
    emitted_to_console c logEvery = Except.ok (Int.fmod c logEvery == 0) := by
  have hne : logEvery ≠ 0 := by omega
  have hcore : console_throttle c logEvery
      = Except.ok (Int.fmod c logEvery == 0) := by
    simp [console_throttle, pymod, hne, Except.map]
  have hlvl : logRecordLevel c logEvery
      = Except.ok (if Int.fmod c logEvery == 0 then infoLevel else debugLevel) := by
    simp [logRecordLevel, hcore, Except.map]
  refine ⟨hlvl, ?_, ?_⟩ <;>
    · simp only [emitted_to_file, emitted_to_console, hlvl, Except.map]
      cases h : (Int.fmod c logEvery == 0) <;>
        simp [h, infoLevel, debugLevel, rootLevel, handlerLevel]

/-- Witness for amended C3 at `counter = 4`, `logEvery = 2`. -/
theorem log_line_emission_witness :
    logRecordLevel 4 2
      = Except.ok (if Int.fmod 4 2 == 0 then infoLevel else debugLevel) ∧
    emitted_to_file 4 2 = Except.ok (Int.fmod 4 2 == 0) ∧
    emitted_to_console 4 2 = Except.ok (Int.fmod 4 2 == 0) :=
  log_line_emission 4 2 (by norm_num)

/--
Claim C10: the console-throttle decision computes `counter % logEvery` with
no zero guard: for every configuration with `logEvery ≥ 1` the expression is
well-defined on every iteration, but the CLI accepts `--log-every 0`
(argparse applies only the `int` conversion) and that configuration makes
the first loop iteration (`counter = 0`) fail with a division error.
-/
theorem console_throttle_zero_division (counter logEvery : Int)
    (hle : 1 ≤ logEvery) :
    (∃ b, console_throttle counter logEvery = Except.ok b) ∧
    argsValid { domain := "t.example", log_every := 0 } = true ∧
    console_throttle 0 0
      = Except.error "integer division or modulo by zero" := by
  have hne : logEvery ≠ 0 := by omega
  exact ⟨⟨Int.fmod counter logEvery == 0,
    by simp [console_throttle, pymod, hne, Except.map]⟩, rfl, rfl⟩

/-- Witness for C10 at `counter = 7`, `logEvery = 3`. -/
theorem console_throttle_zero_division_witness :
    (∃ b, console_throttle 7 3 = Except.ok b) ∧
    argsValid { domain := "t.example", log_every := 0 } = true ∧
    console_throttle 0 0
      = Except.error "integer division or modulo by zero" :=
  console_throttle_zero_division 7 3 (by norm_num)

/-- Once the flag reads true, a loop step adds no sleep and issues no
query: every branch of `stepLoop` under a set flag leaves `sleptTotal` and
`queries` unchanged. -/
theorem stepLoop_flag_true (intervals : Nat → ℚ) (s : LoopState) :
    (stepLoop true intervals s).sleptTotal = s.sleptTotal ∧
    (stepLoop true intervals s).queries = s.queries := by
  rcases s with ⟨ph, q, t⟩
  cases ph with
  | checkOuter => simp [stepLoop]
  | sleeping slept itv => by_cases h : slept < itv <;> simp [stepLoop, h]
  | stopped => simp [stepLoop]

/-- With a monotone flag schedule that is set at read `k`, the observable
counters are frozen from step `k` on. -/
theorem run_stable (stop : Nat → Bool) (intervals : Nat → ℚ) (k : Nat)
    (hmono : ∀ a b, a ≤ b → stop a = true → stop b = true)
    (hk : stop k = true) :
    ∀ m, k ≤ m →
      (run stop intervals m).sleptTotal = (run stop intervals k).sleptTotal ∧
      (run stop intervals m).queries = (run stop intervals k).queries := by
  intro m
  induction m with
  | zero =>
    intro h
    have hk0 : k = 0 := Nat.le_zero.mp h
    subst hk0
    exact ⟨rfl, rfl⟩
  | succ n ih =>
    intro h
    rcases Nat.lt_or_ge k (n + 1) with hlt | hge
    · have hkn : k ≤ n := Nat.lt_succ_iff.mp hlt
      have hsn : stop n = true := hmono k n hkn hk
      have hrun : run stop intervals (n + 1)
          = stepLoop true intervals (run stop intervals n) := by
        rw [show run stop intervals (n + 1)
          = stepLoop (stop n) intervals (run stop intervals n) from rfl, hsn]
      have hstep := stepLoop_flag_true intervals (run stop intervals n)
      have hn := ih hkn
      exact ⟨by rw [hrun, hstep.1, hn.1], by rw [hrun, hstep.2, hn.2]⟩
    · have hk1 : k = n + 1 := Nat.le_antisymm h hge
      subst hk1
      exact ⟨rfl, rfl⟩

/-- A step taken from inside the sleep loop adds at most one sub-step of
sleep and never issues a query, whatever the flag reads. -/
theorem stepLoop_sleeping_bound (flag : Bool) (intervals : Nat → ℚ)
    (s : LoopState) (slept itv : ℚ) (hp : s.phase = Phase.sleeping slept itv) :
    (stepLoop flag intervals s).sleptTotal ≤ s.sleptTotal + subStep ∧
    (stepLoop flag intervals s).queries = s.queries := by
  have hstep : (0 : ℚ) ≤ subStep := by norm_num [subStep]
  unfold stepLoop
  rw [hp]
  by_cases h : slept < itv <;> cases flag <;> simp [h] <;> linarith

/--
Claim C6: sleeping proceeds in fixed `0.2`-second sub-steps with the
shutdown flag checked between sub-steps; if the flag is set during a sleep
sub-step (the loop is in the sleeping phase at read `n` and the flag reads
true from read `n + 1` on), then from that point the loop accumulates at
most one further sub-step (`0.2` seconds) of sleeping — it does not complete
the remaining interval — and issues no further queries ever after.
-/
theorem scheduler_shutdown_latency (stop : Nat → Bool) (intervals : Nat → ℚ)
    (n m : Nat) (s itv : ℚ)
    (hmono : ∀ a b, a ≤ b → stop a = true → stop b = true)
    (hstop : stop (n + 1) = true)
    (hphase : (run stop intervals n).phase = Phase.sleeping s itv)
    (hm : n ≤ m) :
    (run stop intervals m).sleptTotal
      ≤ (run stop intervals n).sleptTotal + subStep ∧
    (run stop intervals m).queries = (run stop intervals n).queries := by
  rcases Nat.eq_or_lt_of_le hm with heq | hlt
  · subst heq
    have hstep : (0 : ℚ) ≤ subStep := by norm_num [subStep]
    exact ⟨by linarith, rfl⟩
  · have hm1 : n + 1 ≤ m := hlt
    have hstable := run_stable stop intervals (n + 1) hmono hstop m hm1
    have hbound := stepLoop_sleeping_bound (stop n) intervals
      (run stop intervals n) s itv hphase
    have hrun : run stop intervals (n + 1)
        = stepLoop (stop n) intervals (run stop intervals n) := rfl
    exact ⟨by rw [hstable.1, hrun]; exact hbound.1,
      by rw [hstable.2, hrun]; exact hbound.2⟩

/-- Witness for C6: with the flag first reading true at the third read while
the loop sleeps a one-second interval, the run never sleeps more than one
sub-step past the sleeping state of step 1 and issues no query after it. -/
theorem scheduler_shutdown_latency_witness :
    (run stopFromTwo oneSecond 5).sleptTotal
      ≤ (run stopFromTwo oneSecond 1).sleptTotal + subStep ∧
    (run stopFromTwo oneSecond 5).queries
      = (run stopFromTwo oneSecond 1).queries :=
  scheduler_shutdown_latency stopFromTwo oneSecond 1 5 0 1
    (fun a b hab ha => by
      simp only [stopFromTwo, decide_eq_true_eq] at ha ⊢
      omega)
    (by decide) (by decide) (by norm_num)

end DnsBeacon
